import Mathlib

/-!
Verification of the `timed-option` crate (`src/lib.rs`).

The crate provides `TimedOption<T, B>`: an optional payload together with a
recorded expiry instant, generic over a `TtlBackend` clock.  The shipped
backend is `std::time::Instant`, where
  `expired() = Instant::now()`,
  `add(self, dt) = self + dt`,
  `is_valid(&self) = *self > Instant::now()`,
  `is_expired(&self) = *self <= Instant::now()`.

Shallow embedding: points in time and durations are `Int` (the `chrono`
backend admits negative durations; `std::time::Duration` is the non-negative
subset), and every operation that reads the ambient clock takes the current
reading `now : Int` as an explicit argument.  Mutating methods
(`expire`, `clear`, `take`, `take_timed_value`) are embedded as functions
returning the updated container (paired with the method's return value when
it has one).  Rust references are modelled as values, so the borrowing
projection `TimedValue::as_ref` becomes a `TimedValue T → TimedValue T`
function with the same exhaustive match structure as the source.
-/

namespace TtlBackend

/-- Embeds `<Instant as TtlBackend>::expired`: `Instant::now()`, i.e. the
clock reading at the moment of the call. -/
def expired (now : Int) : Int := now

/-- Embeds `<Instant as TtlBackend>::add`: `self + dt`. -/
def add (t dt : Int) : Int := t + dt

/-- Embeds `<Instant as TtlBackend>::is_valid`: `*self > Instant::now()`. -/
def is_valid (t now : Int) : Bool := now < t

/-- Embeds `<Instant as TtlBackend>::is_expired`: `*self <= Instant::now()`. -/
def is_expired (t now : Int) : Bool := t ≤ now

end TtlBackend

/-- Embeds the enum `TimedValue<T>` with variants `Valid(T)`, `Expired(T)`,
`None`. -/
inductive TimedValue (T : Type) where
  | valid (v : T)
  | expired (v : T)
  | none
deriving Repr, DecidableEq

namespace TimedValue

/-- Embeds `TimedValue::is_valid`. -/
def is_valid : TimedValue T → Bool
  | valid _ => true
  | expired _ => false
  | none => false

/-- Embeds `TimedValue::is_expired`. -/
def is_expired : TimedValue T → Bool
  | valid _ => false
  | expired _ => true
  | none => false

/-- Embeds `TimedValue::is_none`. -/
def is_none : TimedValue T → Bool
  | valid _ => false
  | expired _ => false
  | none => true

/-- Embeds `TimedValue::has_value`. -/
def has_value : TimedValue T → Bool
  | valid _ => true
  | expired _ => true
  | none => false

/-- Embeds `TimedValue::as_ref` (references are modelled as values). -/
def as_ref : TimedValue T → TimedValue T
  | valid v => valid v
  | expired v => expired v
  | none => none

end TimedValue

/-- Embeds the struct `TimedOption<T, B>`: `value: Option<T>`, `ttl: B`
(the recorded expiry instant, here an `Int`). -/
structure TimedOption (T : Type) where
  value : Option T
  ttl : Int
deriving Repr, DecidableEq

namespace TimedOption

/-- Embeds `TimedOption::new`: value slot filled, `ttl = B::now().add(ttl)`. -/
def new (v : T) (ttl now : Int) : TimedOption T :=
  { value := some v, ttl := TtlBackend.add now ttl }

/-- Embeds `TimedOption::empty`: no value, `ttl = B::expired()`. -/
def empty (now : Int) : TimedOption T :=
  { value := Option.none, ttl := TtlBackend.expired now }

/-- Embeds `TimedOption::into_option`: the value gated by ttl validity. -/
def into_option (o : TimedOption T) (now : Int) : Option T :=
  match TtlBackend.is_valid o.ttl now with
  | true => o.value
  | false => Option.none

/-- Embeds `TimedOption::into_timed_value`: classifies by value presence and
ttl validity. -/
def into_timed_value (o : TimedOption T) (now : Int) : TimedValue T :=
  match o.value, TtlBackend.is_valid o.ttl now with
  | some v, true => TimedValue.valid v
  | some v, false => TimedValue.expired v
  | Option.none, _ => TimedValue.none

/-- Embeds `TimedOption::expire`: `self.ttl = B::expired()`. -/
def expire (o : TimedOption T) (now : Int) : TimedOption T :=
  { o with ttl := TtlBackend.expired now }

/-- Embeds `TimedOption::clear`: `self.value = None`; the ttl is untouched. -/
def clear (o : TimedOption T) : TimedOption T :=
  { o with value := Option.none }

/-- Embeds `TimedOption::take`: `self.value.take()` then gate the taken value
by ttl validity.  Returns the method's return value paired with the updated
container. -/
def take (o : TimedOption T) (now : Int) : Option T × TimedOption T :=
  match TtlBackend.is_valid o.ttl now with
  | true => (o.value, { o with value := Option.none })
  | false => (Option.none, { o with value := Option.none })

/-- Embeds `TimedOption::take_timed_value`: `self.value.take()` classified by
ttl validity.  Returns the method's return value paired with the updated
container. -/
def take_timed_value (o : TimedOption T) (now : Int) : TimedValue T × TimedOption T :=
  match o.value, TtlBackend.is_valid o.ttl now with
  | some v, true => (TimedValue.valid v, { o with value := Option.none })
  | some v, false => (TimedValue.expired v, { o with value := Option.none })
  | Option.none, _ => (TimedValue.none, { o with value := Option.none })

/-- Embeds `TimedOption::is_some`: `self.value.is_some() & self.ttl.is_valid()`. -/
def is_some (o : TimedOption T) (now : Int) : Bool :=
  o.value.isSome && TtlBackend.is_valid o.ttl now

/-- Embeds `TimedOption::is_none`: `self.value.is_none() | self.ttl.is_expired()`. -/
def is_none (o : TimedOption T) (now : Int) : Bool :=
  o.value.isNone || TtlBackend.is_expired o.ttl now

end TimedOption

/-- `Reachable o now`: the container state `o` is reachable through the public
lifecycle operations (`new`, `empty`, `expire`, `clear`, `take`,
`take_timed_value`) with the clock currently reading `now`, the clock being
monotonically non-decreasing between operations. -/
inductive Reachable {T : Type} : TimedOption T → Int → Prop where
  | new (v : T) (ttl now : Int) : Reachable (TimedOption.new v ttl now) now
  | empty (now : Int) : Reachable (TimedOption.empty (T := T) now) now
  | tick {o : TimedOption T} {now : Int} (now' : Int) :
      Reachable o now → now ≤ now' → Reachable o now'
  | expire {o : TimedOption T} {now : Int} :
      Reachable o now → Reachable (o.expire now) now
  | clear {o : TimedOption T} {now : Int} :
      Reachable o now → Reachable o.clear now
  | take {o : TimedOption T} {now : Int} :
      Reachable o now → Reachable (o.take now).2 now
  | take_timed_value {o : TimedOption T} {now : Int} :
      Reachable o now → Reachable (o.take_timed_value now).2 now

/-- C1: for every reachable state and any single consistent clock reading,
`is_none` is the exact logical complement of `is_some`; `is_some` is true iff
the value is present and the expiry is valid, and `is_none` is true iff the
value is absent or the expiry is invalid. -/
theorem is_none_complements_is_some {T : Type} (o : TimedOption T) (now : Int)
    (h : Reachable o now) :
    o.is_none now = !o.is_some now ∧
    (o.is_some now = true ↔ o.value.isSome = true ∧ TtlBackend.is_valid o.ttl now = true) ∧
    (o.is_none now = true ↔ o.value = Option.none ∨ TtlBackend.is_valid o.ttl now = false) := by
  unfold TimedOption.is_none TimedOption.is_some TtlBackend.is_valid TtlBackend.is_expired
  cases o.value <;>
    simp only [Option.isNone_none, Option.isNone_some, Option.isSome_none,
      Option.isSome_some, Bool.true_or, Bool.false_or, Bool.true_and,
      Bool.false_and, Bool.not_false, Bool.not_true, ← decide_not,
      decide_eq_decide, decide_eq_true_eq, Option.some_ne_none] <;>
    constructor <;> simp

/-- Witness for C1 at the concrete reachable state `empty 0` read at clock 0. -/
theorem is_none_complements_is_some_witness :
    (TimedOption.empty (T := Int) 0).is_none 0 =
      !(TimedOption.empty (T := Int) 0).is_some 0 :=
  (is_none_complements_is_some (TimedOption.empty 0) 0 (Reachable.empty 0)).1

/-- C2 counterexample: `clear()` on a freshly constructed `new(0, 10)` (clock
still at 0) yields a reachable state whose value slot is absent while the
stored expiry is NOT expired — the internal invariant fails, so `clear()` does
not re-establish it. -/
theorem clear_leaves_valid_ttl_counterexample :
    Reachable ((TimedOption.new (0 : Int) 10 0).clear) 0 ∧
    ((TimedOption.new (0 : Int) 10 0).clear).value = Option.none ∧
    TtlBackend.is_expired ((TimedOption.new (0 : Int) 10 0).clear).ttl 0 = false :=
  ⟨Reachable.clear (Reachable.new 0 10 0), rfl, by decide⟩

/-- C2 amended: for every reachable state whose value slot is absent, the
container externally presents as absent at every clock reading (`is_none` is
true, `into_option` is `None`, `into_timed_value` is `Absent`), even though
`clear()` and `take()` leave the stored expiry untouched and it need not
denote an expired instant. -/
theorem absent_value_reads_absent {T : Type} (o : TimedOption T) (now : Int)
    (h : Reachable o now) (hv : o.value = Option.none) :
    o.is_none now = true ∧ o.into_option now = Option.none ∧
    o.into_timed_value now = TimedValue.none := by
  unfold TimedOption.is_none TimedOption.into_option TimedOption.into_timed_value
  cases hb : TtlBackend.is_valid o.ttl now <;> simp [hv]

/-- Witness for C2 (amended) at the concrete reachable state `empty 0`. -/
theorem absent_value_reads_absent_witness :
    (TimedOption.empty (T := Int) 0).is_none 0 = true ∧
    (TimedOption.empty (T := Int) 0).into_option 0 = Option.none ∧
    (TimedOption.empty (T := Int) 0).into_timed_value 0 = TimedValue.none :=
  absent_value_reads_absent (TimedOption.empty 0) 0 (Reachable.empty 0) rfl

/-- C3: on a container whose value slot holds a payload but whose expiry is
invalid at the call, `take()` returns `None` while `take_timed_value()`
returns `Expired(payload)`, not `Absent`. -/
theorem take_vs_take_timed_value_expired {T : Type} (o : TimedOption T) (v : T)
    (now : Int) (hv : o.value = some v)
    (hexp : TtlBackend.is_valid o.ttl now = false) :
    (o.take now).1 = Option.none ∧
    (o.take_timed_value now).1 = TimedValue.expired v := by
  unfold TimedOption.take TimedOption.take_timed_value
  rw [hv, hexp]
  exact ⟨rfl, rfl⟩

/-- Witness for C3 at the concrete state `{value = some 7, ttl = 0}` read at
clock 5 (expiry invalid). -/
theorem take_vs_take_timed_value_expired_witness :
    ((⟨some (7 : Int), 0⟩ : TimedOption Int).take 5).1 = Option.none ∧
    ((⟨some (7 : Int), 0⟩ : TimedOption Int).take_timed_value 5).1 =
      TimedValue.expired 7 :=
  take_vs_take_timed_value_expired ⟨some 7, 0⟩ 7 5 rfl (by decide)

/-- C4: calling `expire()` on a freshly constructed `new(v, ttl)` yields a
container for which `into_option()` returns `None` and `into_timed_value()`
returns `Expired(v)` at every clock reading from the expire call onward
(monotonic non-decreasing clock). -/
theorem expire_after_new {T : Type} (v : T) (ttl n1 n2 n3 : Int)
    (h : n2 ≤ n3) :
    ((TimedOption.new v ttl n1).expire n2).into_option n3 = Option.none ∧
    ((TimedOption.new v ttl n1).expire n2).into_timed_value n3 =
      TimedValue.expired v := by
  have hval : TtlBackend.is_valid ((TimedOption.new v ttl n1).expire n2).ttl n3 = false := by
    simp [TimedOption.new, TimedOption.expire, TtlBackend.expired, TtlBackend.is_valid]
    omega
  unfold TimedOption.into_option TimedOption.into_timed_value
  rw [hval]
  exact ⟨rfl, rfl⟩

/-- Witness for C4: `new(42, 100)` at clock 0, expired at clock 0, read at
clock 0. -/
theorem expire_after_new_witness :
    ((TimedOption.new (42 : Int) 100 0).expire 0).into_option 0 = Option.none ∧
    ((TimedOption.new (42 : Int) 100 0).expire 0).into_timed_value 0 =
      TimedValue.expired 42 :=
  expire_after_new 42 100 0 0 0 (by decide)

/-- C5: for every value and strictly positive ttl, immediately after
`new(v, ttl)` (same clock reading as construction), `is_some()` is true and
`into_timed_value()` is `Valid(v)`. -/
theorem new_positive_ttl_valid {T : Type} (v : T) (ttl now : Int)
    (h : 0 < ttl) :
    (TimedOption.new v ttl now).is_some now = true ∧
    (TimedOption.new v ttl now).into_timed_value now = TimedValue.valid v := by
  have hval : TtlBackend.is_valid (TimedOption.new v ttl now).ttl now = true := by
    simp [TimedOption.new, TtlBackend.add, TtlBackend.is_valid]
    omega
  refine ⟨?_, ?_⟩
  · simp [TimedOption.is_some, TimedOption.new] at hval ⊢
    simp [hval]
  · unfold TimedOption.into_timed_value
    rw [hval]
    rfl

/-- Witness for C5: `new(42, 10)` at clock 0, read at clock 0. -/
theorem new_positive_ttl_valid_witness :
    (TimedOption.new (42 : Int) 10 0).is_some 0 = true ∧
    (TimedOption.new (42 : Int) 10 0).into_timed_value 0 = TimedValue.valid 42 :=
  new_positive_ttl_valid 42 10 0 (by decide)

/-- C6: a container constructed with `ttl <= 0` (zero or negative duration)
classifies as expired on the very next read, even if the clock has not
advanced: `is_some()` is false and `into_timed_value()` is `Expired(v)`,
never `Valid`. -/
theorem new_nonpositive_ttl_expired {T : Type} (v : T) (ttl now now' : Int)
    (h : ttl ≤ 0) (hm : now ≤ now') :
    (TimedOption.new v ttl now).is_some now' = false ∧
    (TimedOption.new v ttl now).into_timed_value now' = TimedValue.expired v := by
  have hval : TtlBackend.is_valid (TimedOption.new v ttl now).ttl now' = false := by
    simp [TimedOption.new, TtlBackend.add, TtlBackend.is_valid]
    omega
  refine ⟨?_, ?_⟩
  · simp [TimedOption.is_some, hval]
  · unfold TimedOption.into_timed_value
    rw [hval]
    rfl

/-- Witness for C6: `new(42, 0)` at clock 0, read at clock 0 (no advance). -/
theorem new_nonpositive_ttl_expired_witness :
    (TimedOption.new (42 : Int) 0 0).is_some 0 = false ∧
    (TimedOption.new (42 : Int) 0 0).into_timed_value 0 = TimedValue.expired 42 :=
  new_nonpositive_ttl_expired 42 0 0 0 (by decide) (by decide)

/-- C7: after `clear()`, every read reports absent regardless of the stored
expiry: `is_none()` is true, `into_option()` is `None`, and
`into_timed_value()` is `Absent`, for any state and any clock reading. -/
theorem clear_reads_absent {T : Type} (o : TimedOption T) (now : Int) :
    o.clear.is_none now = true ∧
    o.clear.into_option now = Option.none ∧
    o.clear.into_timed_value now = TimedValue.none := by
  unfold TimedOption.clear TimedOption.is_none TimedOption.into_option
    TimedOption.into_timed_value
  cases hb : TtlBackend.is_valid o.ttl now <;> simp

/-- C8: the backend's `expired()` point in time is never valid: `is_valid` on
it is false at the moment of its creation and at every later clock reading
(monotonic non-decreasing now). -/
theorem expired_never_valid (now now' : Int) (h : now ≤ now') :
    TtlBackend.is_valid (TtlBackend.expired now) now' = false := by
  simp [TtlBackend.is_valid, TtlBackend.expired]
  omega

/-- Witness for C8: the sentinel created at clock 0, checked at clock 3. -/
theorem expired_never_valid_witness :
    TtlBackend.is_valid (TtlBackend.expired 0) 3 = false :=
  expired_never_valid 0 3 (by decide)

/-- C9: directly after `new(v, ttl)` — for any ttl, including one that makes
the container immediately expired — `into_timed_value()` and
`take_timed_value()` never return `Absent`: the payload surfaces as either
`Valid(v)` or `Expired(v)`. -/
theorem new_never_absent {T : Type} (v : T) (ttl now now' : Int) :
    ((TimedOption.new v ttl now).into_timed_value now' = TimedValue.valid v ∨
      (TimedOption.new v ttl now).into_timed_value now' = TimedValue.expired v) ∧
    (((TimedOption.new v ttl now).take_timed_value now').1 = TimedValue.valid v ∨
      ((TimedOption.new v ttl now).take_timed_value now').1 = TimedValue.expired v) := by
  cases hb : TtlBackend.is_valid (TimedOption.new v ttl now).ttl now' <;>
    simp [TimedOption.new, TimedOption.into_timed_value,
      TimedOption.take_timed_value, TtlBackend.add] at hb ⊢ <;>
    rw [hb]
  · exact ⟨Or.inr rfl, Or.inr rfl⟩
  · exact ⟨Or.inl rfl, Or.inl rfl⟩

/-- C10: the borrowing projection `TimedValue::as_ref` preserves the
classification: `is_valid`, `is_expired`, `is_none` and `has_value` answer
the same on `x.as_ref()` as on `x`. -/
theorem as_ref_preserves_classification {T : Type} (x : TimedValue T) :
    x.as_ref.is_valid = x.is_valid ∧
    x.as_ref.is_expired = x.is_expired ∧
    x.as_ref.is_none = x.is_none ∧
    x.as_ref.has_value = x.has_value := by
  cases x <;> exact ⟨rfl, rfl, rfl, rfl⟩
